import Mathlib

/-!
Shallow embedding of `plugins/modules/oracle.py` (the `philip860.oracle`
Ansible module).  The module is a linear, single-threaded program: it
validates parameters, optionally initialises a thick-mode client and a
TCPS wallet environment, opens one database connection, runs one
`SELECT * FROM <table>` query, writes one CSV file and reports a result.

The embedding models every externally visible step of an invocation as an
`Event` appended to a trace, and the final report (`exit_json` /
`fail_json`) as an `Outcome`.  The nondeterministic environment (the
filesystem, the database driver and the file system write) is captured by
a `World` record supplied to the run.  All definitions mirror the Python
source line by line; CSV output follows Python's `csv.writer` with the
default `excel` dialect (comma delimiter, minimal quoting with doubled
quote characters, CRLF line terminator, and the single-empty-field
quoting quirk).
-/

/-- Module parameters, after parsing by `AnsibleModule`.  Optional string
parameters that default to `""` (or whose absence and emptiness are
indistinguishable under Python truthiness, as `table_name` and
`save_path` are at line 202) are plain strings, with `""` meaning
missing. -/
structure Params where
  username : String
  password : String
  host : String
  port : Nat
  service_name : String
  use_tcps : Bool
  wallet_location : String
  client_lib_dir : String
  action : String
  table_name : String
  save_path : String
  check_mode : Bool
deriving Repr, DecidableEq

/-- Result of `cursor.execute` + `cursor.description` + `cursor.fetchall`
for the one query the module runs: either column metadata and rows (all
values rendered as the strings `csv.writer` would emit for them), or the
text of the exception raised during execution. -/
inductive QueryResult where
  | ok (columns : List String) (rows : List (List String)) : QueryResult
  | err (msg : String) : QueryResult
deriving Repr, DecidableEq

/-- The environment an invocation runs against: the filesystem predicates
used by `os.path.isdir` / `os.listdir`, whether `oracledb.connect` raises
a `DatabaseError` (and its text), the outcome of the export query, and
whether opening/writing the CSV file raises (and the exception text). -/
structure World where
  fs_isdir : String → Bool
  fs_listdir : String → List String
  connectErr : Option String
  queryResult : QueryResult
  fileWriteErr : Option String

/-- Externally visible side effects of an invocation, in program order. -/
inductive Event where
  | initClient (libDir : String) : Event
  | setEnv (name value : String) : Event
  | connectAttempt (dsn : String) : Event
  | cursorOpen : Event
  | queryExec : Event
  | fileOpen (path : String) : Event
  | fileWrite (path : String) (content : String) : Event
  | cursorClose : Event
  | connClose : Event
deriving Repr, DecidableEq

/-- The final report of the invocation: `fail_json` (fatal, process exits
non-zero) with its message, or `exit_json` with the `changed` flag and
`message` of the result dict. -/
inductive Outcome where
  | failJson (msg : String) : Outcome
  | exitJson (changed : Bool) (message : String) : Outcome
deriving Repr, DecidableEq

/-! ### CSV model (Python `csv.writer`, default `excel` dialect) -/

/-- A character forcing `csv.writer` to quote a field under
`QUOTE_MINIMAL`: the delimiter, the quote character, or a CR/LF. -/
def isCsvSpecial (c : Char) : Bool :=
  c == ',' || c == '"' || c == '\r' || c == '\n'

/-- Whether `csv.writer` quotes the field under `QUOTE_MINIMAL`. -/
def csvNeedsQuoting (s : String) : Bool :=
  s.toList.any isCsvSpecial

/-- Quote a field: surround with `"` and double every interior `"`. -/
def csvQuote (s : String) : String :=
  "\"" ++ String.join (s.toList.map fun c =>
    if c == '"' then "\"\"" else String.singleton c) ++ "\""

/-- Render one field as `csv.writer` does. -/
def csvField (s : String) : String :=
  if csvNeedsQuoting s then csvQuote s else s

/-- Join strings with a separator (the writer's comma join). -/
def joinSep (sep : String) : List String → String
  | [] => ""
  | [a] => a
  | a :: b :: rest => a ++ sep ++ joinSep sep (b :: rest)

/-- One CSV record, before the line terminator.  `csv.writer` quotes a
row consisting of a single empty field (to keep it distinct from an
empty row). -/
def csvRecord (fields : List String) : String :=
  if fields = [""] then "\"\"" else joinSep "," (fields.map csvField)

/-- One CSV row as written to the file: record plus CRLF terminator. -/
def csvRow (fields : List String) : String :=
  csvRecord fields ++ "\r\n"

/-- `writer.writerows`: each row in order, concatenated. -/
def csvRows : List (List String) → String
  | [] => ""
  | r :: rs => csvRow r ++ csvRows rs

/-- The full file content produced by `writer.writerow(columns)` followed
by `writer.writerows(cursor.fetchall())` (oracle.py lines 108-111). -/
def csvContent (columns : List String) (rows : List (List String)) : String :=
  csvRow columns ++ csvRows rows

/-- A list of lines, each terminated by the writer's CRLF terminator: the
shape a CSV file takes when no field needs quoting. -/
def linesJoined : List String → String
  | [] => ""
  | l :: ls => l ++ "\r\n" ++ linesJoined ls

/-- Number of physical lines of a file whose content ends in a line
terminator: the number of `\n` characters. -/
def numLines (s : String) : Nat :=
  s.toList.count '\n'

/-! ### The module's functions (oracle.py) -/

/-- `export_table_to_csv` (lines 101-115).  Executes
`SELECT * FROM <table_name>`, writes the header row and all data rows to
`save_path`, and returns the success message; any exception raised while
querying or writing is caught and turned into a failure message.  The
returned trace records which steps were reached. -/
def export_table_to_csv (qr : QueryResult) (table_name save_path : String)
    (fwErr : Option String) : String × List Event :=
  match qr with
  | QueryResult.err e =>
    ("Failed to export table " ++ table_name ++ ": " ++ e, [Event.queryExec])
  | QueryResult.ok columns rows =>
    match fwErr with
    | some e =>
      ("Failed to export table " ++ table_name ++ ": " ++ e,
       [Event.queryExec, Event.fileOpen save_path])
    | none =>
      ("Table " ++ table_name ++ " exported successfully to " ++ save_path,
       [Event.queryExec, Event.fileOpen save_path,
        Event.fileWrite save_path (csvContent columns rows)])

/-- `validate_wallet` (lines 117-127): the directory must exist and hold
at least one file. -/
def validate_wallet (wallet_location : String) (w : World) : Bool × String :=
  if wallet_location = "" ∨ w.fs_isdir wallet_location = false then
    (false, "Wallet location \x27" ++ wallet_location ++
      "\x27 does not exist or is not a directory.")
  else if w.fs_listdir wallet_location = [] then
    (false, "Wallet location \x27" ++ wallet_location ++
      "\x27 is empty. No wallet files found.")
  else (true, "")

/-- Thick-mode initialisation (lines 174-176): performed only when
`client_lib_dir` is non-empty and is an existing directory. -/
def thickEvents (p : Params) (w : World) : List Event :=
  if p.client_lib_dir ≠ "" ∧ w.fs_isdir p.client_lib_dir = true then
    [Event.initClient p.client_lib_dir,
     Event.setEnv "LD_LIBRARY_PATH" p.client_lib_dir]
  else []

/-- Environment mutations of the TCPS branch (lines 184-187). -/
def tcpsEnvEvents (wallet_location : String) : List Event :=
  [Event.setEnv "TNS_ADMIN" wallet_location,
   Event.setEnv "WALLET_LOCATION" wallet_location,
   Event.setEnv "SSL_CERT_DIR" wallet_location,
   Event.setEnv "IGNORE_ANO_ENCRYPTION_FOR_TCPS" "TRUE"]

/-- The plain-TCP DSN `host:port/service_name` (line 196). -/
def hostDsn (p : Params) : String :=
  p.host ++ ":" ++ toString p.port ++ "/" ++ p.service_name

/-- The TCPS connect descriptor (line 190). -/
def tcpsDsn (p : Params) : String :=
  "(DESCRIPTION=(ADDRESS=(PROTOCOL=TCPS)(HOST=" ++ p.host ++ ")(PORT=" ++
    toString p.port ++ "))(CONNECT_DATA=(SERVICE_NAME=" ++
    p.service_name ++ ")))"

/-- Lines 192/197-210: attempt the connection with the given DSN; on a
`DatabaseError` fall to the top-level handler (lines 212-214), else open
a cursor, validate the export parameters (lines 201-203), run the export,
close cursor and connection, and `exit_json` the result. -/
def connectAndRun (p : Params) (w : World) (evs : List Event)
    (dsn : String) : Outcome × List Event :=
  match w.connectErr with
  | some e =>
    (Outcome.failJson ("Database connection failed: " ++ e),
     evs ++ [Event.connectAttempt dsn])
  | none =>
    let evs2 := evs ++ [Event.connectAttempt dsn, Event.cursorOpen]
    if p.action = "export" then
      if p.table_name = "" ∨ p.save_path = "" then
        (Outcome.failJson
          "Both \x27table_name\x27 and \x27save_path\x27 are required for export action",
         evs2)
      else
        let r := export_table_to_csv w.queryResult p.table_name p.save_path
          w.fileWriteErr
        (Outcome.exitJson true r.1,
         evs2 ++ r.2 ++ [Event.cursorClose, Event.connClose])
    else
      (Outcome.exitJson false "", evs2 ++ [Event.cursorClose, Event.connClose])

/-- `run_module` (lines 129-216).  `AnsibleModule` rejects an action
outside `choices=[export]` when parsing the arguments (line 139), before
the module body runs; then the body checks `host` (line 166), honours
check mode (line 169), initialises the thick client, takes the TCPS or
TCP branch, and proceeds to connect and export. -/
def run_module (p : Params) (w : World) : Outcome × List Event :=
  if p.action ≠ "export" then
    (Outcome.failJson ("value of action must be one of: export, got: " ++
      p.action), [])
  else if p.host = "" then
    (Outcome.failJson "Missing required parameter: host", [])
  else if p.check_mode then
    (Outcome.exitJson false "", [])
  else
    let evs := thickEvents p w
    if p.use_tcps then
      let vw := validate_wallet p.wallet_location w
      if vw.1 then
        connectAndRun p w (evs ++ tcpsEnvEvents p.wallet_location) (tcpsDsn p)
      else
        (Outcome.failJson vw.2, evs)
    else
      connectAndRun p w evs (hostDsn p)

/-! ### Concrete base instances used by witnesses and counterexamples -/

/-- Classifies the events of the export phase proper: query execution and
file I/O.  Validation failures happen strictly before any of these. -/
def isExportEvent : Event → Bool
  | Event.queryExec => true
  | Event.fileOpen _ => true
  | Event.fileWrite _ _ => true
  | _ => false

/-- Classifies the events that mutate the process environment: the
`os.environ` assignments and the thick-client initialisation that
accompanies the `LD_LIBRARY_PATH` assignment. -/
def isEnvEvent : Event → Bool
  | Event.setEnv _ _ => true
  | Event.initClient _ => true
  | _ => false

/-- A plain-TCP export invocation matching the spec's §8 example. -/
def pBase : Params :=
  { username := "u", password := "p", host := "db.example.com",
    port := 1521, service_name := "ORCL", use_tcps := false,
    wallet_location := "", client_lib_dir := "", action := "export",
    table_name := "EMP", save_path := "/tmp/emp.csv", check_mode := false }

/-- A benign environment: every path is a directory holding one file, the
connection succeeds, the query returns a two-column, two-row table, and
the file write succeeds. -/
def wBase : World :=
  { fs_isdir := fun _ => true,
    fs_listdir := fun _ => ["cwallet.sso"],
    connectErr := none,
    queryResult := QueryResult.ok ["EMPNO", "ENAME"] [["1", "A"], ["2", "B"]],
    fileWriteErr := none }

/-! ### Helper lemmas: strings and CSV shape -/

theorem toList_append (a b : String) :
    (a ++ b).toList = a.toList ++ b.toList := by
  cases a; cases b; rfl

theorem count_nl_append (a b : String) :
    (a ++ b).toList.count '\n' = a.toList.count '\n' + b.toList.count '\n' := by
  rw [toList_append, List.count_append]

theorem count_nl_simple (s : String) (h : csvNeedsQuoting s = false) :
    s.toList.count '\n' = 0 := by
  rw [List.count_eq_zero]
  intro hmem
  have hfalse := List.any_eq_false.mp h '\n' hmem
  simp [isCsvSpecial] at hfalse

theorem csvField_simple (s : String) (h : csvNeedsQuoting s = false) :
    csvField s = s := by
  simp [csvField, h]

theorem map_csvField_simple (l : List String)
    (h : ∀ f ∈ l, csvNeedsQuoting f = false) :
    l.map csvField = l := by
  induction l with
  | nil => rfl
  | cons a rest ih =>
    simp only [List.map_cons]
    rw [csvField_simple a (h a (by simp)),
      ih (fun f hf => h f (List.mem_cons_of_mem a hf))]

theorem csvRecord_simple (l : List String)
    (h : ∀ f ∈ l, csvNeedsQuoting f = false) (hne : l ≠ [""]) :
    csvRecord l = joinSep "," l := by
  rw [csvRecord, if_neg hne, map_csvField_simple l h]

theorem csvRow_simple (l : List String)
    (h : ∀ f ∈ l, csvNeedsQuoting f = false) (hne : l ≠ [""]) :
    csvRow l = joinSep "," l ++ "\r\n" := by
  rw [csvRow, csvRecord_simple l h hne]

theorem count_nl_joinSep (l : List String)
    (h : ∀ f ∈ l, csvNeedsQuoting f = false) :
    (joinSep "," l).toList.count '\n' = 0 := by
  induction l with
  | nil => rfl
  | cons a rest ih =>
    cases rest with
    | nil => exact count_nl_simple a (h a (by simp))
    | cons b r2 =>
      have e : joinSep "," (a :: b :: r2)
          = (a ++ ",") ++ joinSep "," (b :: r2) := rfl
      rw [e, count_nl_append, count_nl_append]
      rw [count_nl_simple a (h a (by simp)),
        ih (fun f hf => h f (List.mem_cons_of_mem a hf))]
      decide

theorem count_nl_csvRow_simple (l : List String)
    (h : ∀ f ∈ l, csvNeedsQuoting f = false) (hne : l ≠ [""]) :
    (csvRow l).toList.count '\n' = 1 := by
  rw [csvRow_simple l h hne, count_nl_append, count_nl_joinSep l h]
  decide

theorem csvRows_simple (rows : List (List String))
    (h : ∀ r ∈ rows, (∀ f ∈ r, csvNeedsQuoting f = false) ∧ r ≠ [""]) :
    csvRows rows = linesJoined (rows.map (joinSep ",")) := by
  induction rows with
  | nil => rfl
  | cons r rs ih =>
    have hr := h r (by simp)
    rw [csvRows, List.map_cons, linesJoined,
      csvRow_simple r hr.1 hr.2,
      ih (fun x hx => h x (List.mem_cons_of_mem r hx)),
      String.append_assoc]

theorem count_nl_csvRows (rows : List (List String))
    (h : ∀ r ∈ rows, (∀ f ∈ r, csvNeedsQuoting f = false) ∧ r ≠ [""]) :
    (csvRows rows).toList.count '\n' = rows.length := by
  induction rows with
  | nil => rfl
  | cons r rs ih =>
    have hr := h r (by simp)
    rw [csvRows, count_nl_append, count_nl_csvRow_simple r hr.1 hr.2,
      ih (fun x hx => h x (List.mem_cons_of_mem r hx)), List.length_cons,
      Nat.add_comm]

theorem csvContent_simple (cols : List String) (rows : List (List String))
    (hcols : ∀ f ∈ cols, csvNeedsQuoting f = false) (hc1 : cols ≠ [""])
    (hrows : ∀ r ∈ rows, (∀ f ∈ r, csvNeedsQuoting f = false) ∧ r ≠ [""]) :
    csvContent cols rows
      = linesJoined (joinSep "," cols :: rows.map (joinSep ",")) := by
  rw [csvContent, linesJoined, csvRow_simple cols hcols hc1,
    csvRows_simple rows hrows, String.append_assoc]

theorem numLines_csvContent_simple (cols : List String)
    (rows : List (List String))
    (hcols : ∀ f ∈ cols, csvNeedsQuoting f = false) (hc1 : cols ≠ [""])
    (hrows : ∀ r ∈ rows, (∀ f ∈ r, csvNeedsQuoting f = false) ∧ r ≠ [""]) :
    numLines (csvContent cols rows) = rows.length + 1 := by
  rw [numLines, csvContent, count_nl_append,
    count_nl_csvRow_simple cols hcols hc1, count_nl_csvRows rows hrows,
    Nat.add_comm]

/-! ### Helper lemmas: traces of the module's phases -/

theorem export_trace_queryExec (qr : QueryResult) (t sp : String)
    (fe : Option String) :
    Event.queryExec ∈ (export_table_to_csv qr t sp fe).2 := by
  cases qr <;> cases fe <;> simp [export_table_to_csv]

theorem export_trace_not_env (qr : QueryResult) (t sp : String)
    (fe : Option String) :
    ∀ e ∈ (export_table_to_csv qr t sp fe).2, isEnvEvent e = false := by
  intro e he
  cases qr <;> cases fe <;>
    (simp [export_table_to_csv] at he) <;>
    (rcases he with rfl | rfl | rfl <;> rfl)

theorem thickEvents_not_export (p : Params) (w : World) :
    ∀ e ∈ thickEvents p w, isExportEvent e = false := by
  intro e he
  unfold thickEvents at he
  split at he
  · rcases List.mem_cons.mp he with rfl | he2
    · rfl
    · rcases List.mem_singleton.mp he2 with rfl
      rfl
  · exact absurd he (List.not_mem_nil e)

theorem tcpsEnvEvents_not_export (wl : String) :
    ∀ e ∈ tcpsEnvEvents wl, isExportEvent e = false := by
  intro e he
  simp [tcpsEnvEvents] at he
  rcases he with rfl | rfl | rfl | rfl <;> rfl

theorem connectAndRun_trace_shape (p : Params) (w : World)
    (evs : List Event) (dsn : String) :
    ∃ rest, (connectAndRun p w evs dsn).2 = evs ++ rest := by
  unfold connectAndRun
  cases w.connectErr with
  | some e => exact ⟨[Event.connectAttempt dsn], rfl⟩
  | none =>
    by_cases ha : p.action = "export"
    · by_cases hm : p.table_name = "" ∨ p.save_path = ""
      · refine ⟨[Event.connectAttempt dsn, Event.cursorOpen], ?_⟩
        simp only [if_pos ha, if_pos hm]
      · refine ⟨[Event.connectAttempt dsn, Event.cursorOpen]
            ++ (export_table_to_csv w.queryResult p.table_name p.save_path
                  w.fileWriteErr).2
            ++ [Event.cursorClose, Event.connClose], ?_⟩
        simp only [if_pos ha, if_neg hm]
        simp [List.append_assoc]
    · refine ⟨[Event.connectAttempt dsn, Event.cursorOpen,
          Event.cursorClose, Event.connClose], ?_⟩
      simp only [if_neg ha]
      simp [List.append_assoc]

theorem connectAndRun_export (p : Params) (w : World) (evs : List Event)
    (dsn : String) (ha : p.action = "export") (hconn : w.connectErr = none)
    (htab : p.table_name ≠ "") (hsave : p.save_path ≠ "") :
    connectAndRun p w evs dsn =
      (Outcome.exitJson true
        (export_table_to_csv w.queryResult p.table_name p.save_path
          w.fileWriteErr).1,
       (evs ++ [Event.connectAttempt dsn, Event.cursorOpen])
         ++ (export_table_to_csv w.queryResult p.table_name p.save_path
              w.fileWriteErr).2
         ++ [Event.cursorClose, Event.connClose]) := by
  have hm : ¬ (p.table_name = "" ∨ p.save_path = "") := by
    rintro (h1 | h2)
    · exact htab h1
    · exact hsave h2
  simp [connectAndRun, hconn, ha, hm]

theorem connectAndRun_missing (p : Params) (w : World) (evs : List Event)
    (dsn : String) (ha : p.action = "export")
    (hm : p.table_name = "" ∨ p.save_path = "") :
    (∃ m, (connectAndRun p w evs dsn).1 = Outcome.failJson m)
    ∧ ∀ e ∈ (connectAndRun p w evs dsn).2,
        e ∈ evs ∨ isExportEvent e = false := by
  unfold connectAndRun
  cases hc : w.connectErr with
  | some er =>
    refine ⟨⟨"Database connection failed: " ++ er, rfl⟩, ?_⟩
    intro e he
    rcases List.mem_append.mp he with h1 | h2
    · exact Or.inl h1
    · rcases List.mem_singleton.mp h2 with rfl
      exact Or.inr rfl
  | none =>
    simp only [ha, if_pos rfl, if_pos hm]
    refine ⟨⟨_, rfl⟩, ?_⟩
    intro e he
    rcases List.mem_append.mp he with h1 | h2
    · exact Or.inl h1
    · rcases List.mem_cons.mp h2 with rfl | h3
      · exact Or.inr rfl
      · rcases List.mem_singleton.mp h3 with rfl
        exact Or.inr rfl

theorem noExport_append (l1 l2 : List Event)
    (h1 : ∀ e ∈ l1, isExportEvent e = false)
    (h2 : ∀ e ∈ l2, isExportEvent e = false) :
    ∀ e ∈ l1 ++ l2, isExportEvent e = false := by
  intro e he
  rcases List.mem_append.mp he with h | h
  · exact h1 e h
  · exact h2 e h

theorem queryExec_not_mem_of_noExport (evs : List Event)
    (h : ∀ e ∈ evs, isExportEvent e = false) :
    Event.queryExec ∉ evs := by
  intro hm
  exact absurd (h Event.queryExec hm) (by decide)

theorem connectAndRun_exit (p : Params) (w : World) (evs : List Event)
    (dsn : String) (c : Bool) (m : String) (ha : p.action = "export")
    (h : (connectAndRun p w evs dsn).1 = Outcome.exitJson c m) :
    c = true ∧ Event.queryExec ∈ (connectAndRun p w evs dsn).2 := by
  cases hc : w.connectErr with
  | some er =>
    simp only [connectAndRun, hc] at h
    exact absurd h (by simp)
  | none =>
    by_cases hm : p.table_name = "" ∨ p.save_path = ""
    · simp only [connectAndRun, hc, if_pos ha, if_pos hm] at h
      exact absurd h (by simp)
    · simp only [connectAndRun, hc, if_pos ha, if_neg hm] at h ⊢
      injection h with h1 h2
      refine ⟨h1.symm, ?_⟩
      have hq := export_trace_queryExec w.queryResult p.table_name p.save_path
        w.fileWriteErr
      exact List.mem_append_left _ (List.mem_append_right _ hq)

theorem connectAndRun_queryExec (p : Params) (w : World) (evs : List Event)
    (dsn : String)
    (hq : ∀ e ∈ evs, isExportEvent e = false)
    (h : Event.queryExec ∈ (connectAndRun p w evs dsn).2) :
    (connectAndRun p w evs dsn).1
      = Outcome.exitJson true
          (export_table_to_csv w.queryResult p.table_name p.save_path
            w.fileWriteErr).1
    ∧ ∃ pre, (connectAndRun p w evs dsn).2
          = pre ++ [Event.cursorClose, Event.connClose]
        ∧ Event.queryExec ∈ pre := by
  have hqn : Event.queryExec ∉ evs := queryExec_not_mem_of_noExport evs hq
  cases hc : w.connectErr with
  | some er =>
    simp only [connectAndRun, hc] at h
    rcases List.mem_append.mp h with h1 | h2
    · exact absurd h1 hqn
    · simp at h2
  | none =>
    by_cases ha : p.action = "export"
    · by_cases hm : p.table_name = "" ∨ p.save_path = ""
      · simp only [connectAndRun, hc, if_pos ha, if_pos hm] at h
        rcases List.mem_append.mp h with h1 | h2
        · exact absurd h1 hqn
        · simp at h2
      · simp only [connectAndRun, hc, if_pos ha, if_neg hm] at h ⊢
        refine ⟨by trivial, ?_⟩
        refine ⟨(evs ++ [Event.connectAttempt dsn, Event.cursorOpen])
          ++ (export_table_to_csv w.queryResult p.table_name p.save_path
                w.fileWriteErr).2, by simp [List.append_assoc], ?_⟩
        exact List.mem_append_right _
          (export_trace_queryExec w.queryResult p.table_name p.save_path
            w.fileWriteErr)
    · simp only [connectAndRun, hc, if_neg ha] at h
      rcases List.mem_append.mp h with h1 | h2
      · rcases List.mem_append.mp h1 with h3 | h4
        · exact absurd h3 hqn
        · simp at h4
      · simp at h2

theorem connectAndRun_env (p : Params) (w : World) (evs : List Event)
    (dsn : String)
    (h : ∀ e ∈ evs, isEnvEvent e = false) :
    ∀ e ∈ (connectAndRun p w evs dsn).2, isEnvEvent e = false := by
  intro e he
  cases hc : w.connectErr with
  | some er =>
    simp only [connectAndRun, hc] at he
    rcases List.mem_append.mp he with h1 | h2
    · exact h e h1
    · rcases List.mem_singleton.mp h2 with rfl
      rfl
  | none =>
    by_cases ha : p.action = "export"
    · by_cases hm : p.table_name = "" ∨ p.save_path = ""
      · simp only [connectAndRun, hc, if_pos ha, if_pos hm] at he
        rcases List.mem_append.mp he with h1 | h2
        · exact h e h1
        · rcases List.mem_cons.mp h2 with rfl | h3
          · rfl
          · rcases List.mem_singleton.mp h3 with rfl
            rfl
      · simp only [connectAndRun, hc, if_pos ha, if_neg hm] at he
        rcases List.mem_append.mp he with h1 | h2
        · rcases List.mem_append.mp h1 with h3 | h4
          · rcases List.mem_append.mp h3 with h5 | h6
            · exact h e h5
            · rcases List.mem_cons.mp h6 with rfl | h7
              · rfl
              · rcases List.mem_singleton.mp h7 with rfl
                rfl
          · exact export_trace_not_env w.queryResult p.table_name p.save_path
              w.fileWriteErr e h4
        · rcases List.mem_cons.mp h2 with rfl | h3
          · rfl
          · rcases List.mem_singleton.mp h3 with rfl
            rfl
    · simp only [connectAndRun, hc, if_neg ha] at he
      rcases List.mem_append.mp he with h1 | h2
      · rcases List.mem_append.mp h1 with h3 | h4
        · exact h e h3
        · rcases List.mem_cons.mp h4 with rfl | h5
          · rfl
          · rcases List.mem_singleton.mp h5 with rfl
            rfl
      · rcases List.mem_cons.mp h2 with rfl | h3
        · rfl
        · rcases List.mem_singleton.mp h3 with rfl
          rfl

theorem run_module_shape (p : Params) (w : World) :
    (¬ p.action = "export"
      ∧ run_module p w = (Outcome.failJson
          ("value of action must be one of: export, got: " ++ p.action), []))
    ∨ (p.action = "export" ∧ p.host = ""
      ∧ run_module p w
          = (Outcome.failJson "Missing required parameter: host", []))
    ∨ (p.action = "export" ∧ ¬ p.host = "" ∧ p.check_mode = true
      ∧ run_module p w = (Outcome.exitJson false "", []))
    ∨ (p.action = "export" ∧ ¬ p.host = "" ∧ p.check_mode = false
      ∧ p.use_tcps = true ∧ (validate_wallet p.wallet_location w).1 = false
      ∧ run_module p w
          = (Outcome.failJson (validate_wallet p.wallet_location w).2,
             thickEvents p w))
    ∨ (p.action = "export" ∧ ¬ p.host = "" ∧ p.check_mode = false
      ∧ p.use_tcps = true ∧ (validate_wallet p.wallet_location w).1 = true
      ∧ run_module p w = connectAndRun p w
          (thickEvents p w ++ tcpsEnvEvents p.wallet_location) (tcpsDsn p))
    ∨ (p.action = "export" ∧ ¬ p.host = "" ∧ p.check_mode = false
      ∧ p.use_tcps = false
      ∧ run_module p w = connectAndRun p w (thickEvents p w) (hostDsn p)) := by
  by_cases ha : p.action = "export"
  · by_cases hh : p.host = ""
    · exact Or.inr (Or.inl ⟨ha, hh, by simp [run_module, ha, hh]⟩)
    · by_cases hcm : p.check_mode = true
      · exact Or.inr (Or.inr (Or.inl ⟨ha, hh, hcm,
          by simp [run_module, ha, hh, hcm]⟩))
      · have hcm2 : p.check_mode = false := by simpa using hcm
        by_cases ht : p.use_tcps = true
        · by_cases hv : (validate_wallet p.wallet_location w).1 = true
          · exact Or.inr (Or.inr (Or.inr (Or.inr (Or.inl ⟨ha, hh, hcm2, ht, hv,
              by simp [run_module, ha, hh, hcm2, ht, hv]⟩))))
          · have hv2 : (validate_wallet p.wallet_location w).1 = false := by
              simpa using hv
            exact Or.inr (Or.inr (Or.inr (Or.inl ⟨ha, hh, hcm2, ht, hv2,
              by simp [run_module, ha, hh, hcm2, ht, hv2]⟩)))
        · have ht2 : p.use_tcps = false := by simpa using ht
          exact Or.inr (Or.inr (Or.inr (Or.inr (Or.inr ⟨ha, hh, hcm2, ht2,
            by simp [run_module, ha, hh, hcm2, ht2]⟩))))
  · exact Or.inl ⟨ha, by simp [run_module, ha]⟩

theorem validate_wallet_msg (wl : String) (w : World)
    (h : (validate_wallet wl w).1 = false) :
    (validate_wallet wl w).2
        = "Wallet location \x27" ++ wl ++
          "\x27 does not exist or is not a directory."
    ∨ (validate_wallet wl w).2
        = "Wallet location \x27" ++ wl ++ "\x27 is empty. No wallet files found." := by
  by_cases h1 : wl = "" ∨ w.fs_isdir wl = false
  · left
    simp only [validate_wallet, if_pos h1]
  · by_cases h2 : w.fs_listdir wl = []
    · right
      simp only [validate_wallet, if_neg h1, if_pos h2]
    · exfalso
      simp only [validate_wallet, if_neg h1, if_neg h2] at h
      exact absurd h (by simp)

theorem export_msg_err (qr : QueryResult) (t sp : String) (fe : Option String)
    (e : String)
    (h : qr = QueryResult.err e
      ∨ ∃ cols rows, qr = QueryResult.ok cols rows ∧ fe = some e) :
    (export_table_to_csv qr t sp fe).1
      = "Failed to export table " ++ t ++ ": " ++ e := by
  rcases h with rfl | ⟨cols, rows, rfl, rfl⟩ <;> rfl

theorem run_module_export_outcome (p : Params) (w : World)
    (ha : p.action = "export") (hh : ¬ p.host = "") (hcm : p.check_mode = false)
    (hw : p.use_tcps = true → (validate_wallet p.wallet_location w).1 = true)
    (hconn : w.connectErr = none)
    (htab : p.table_name ≠ "") (hsave : p.save_path ≠ "") :
    (run_module p w).1
      = Outcome.exitJson true
          (export_table_to_csv w.queryResult p.table_name p.save_path
            w.fileWriteErr).1 := by
  rcases run_module_shape p w with
    ⟨hna, _⟩ | ⟨_, hh2, _⟩ | ⟨_, _, hcm2, _⟩ |
    ⟨_, _, _, ht, hv, _⟩ | ⟨_, _, _, _, _, heq⟩ | ⟨_, _, _, _, heq⟩
  · exact absurd ha hna
  · exact absurd hh2 hh
  · rw [hcm] at hcm2
    exact absurd hcm2 (by simp)
  · rw [hw ht] at hv
    exact absurd hv (by simp)
  · rw [heq, connectAndRun_export p w _ _ ha hconn htab hsave]
  · rw [heq, connectAndRun_export p w _ _ ha hconn htab hsave]

/-! ### Further concrete instances for witnesses and counterexamples -/

/-- `wBase` with the export query raising (nonexistent table). -/
def wQueryErr : World :=
  { wBase with
    queryResult := QueryResult.err "ORA-00942: table or view does not exist" }

/-- A TCPS invocation pointing at a wallet directory. -/
def pTcps : Params :=
  { pBase with use_tcps := true, wallet_location := "/wallet" }

/-- `wBase` with a filesystem on which no path is a directory. -/
def wNoDir : World := { wBase with fs_isdir := fun _ => false }

/-- `pBase` in check mode. -/
def pCheck : Params := { pBase with check_mode := true }

/-! ### Claims -/

/-- C1 (amended): for every non-check-mode invocation with
`action=export` in which `table_name` or `save_path` is missing, the
operation fails (a `fail_json` fatal report) before any export step — no
query is executed and no file is opened or written — although a
connection attempt may already have been made (the missing-parameter
check at oracle.py line 202 runs after `oracledb.connect` at lines
192/197, as the counterexample shows). -/
theorem c1_missing_export_params_fail_before_export (p : Params) (w : World)
    (ha : p.action = "export") (hcm : p.check_mode = false)
    (hm : p.table_name = "" ∨ p.save_path = "") :
    (∃ m, (run_module p w).1 = Outcome.failJson m)
    ∧ ∀ e ∈ (run_module p w).2, isExportEvent e = false := by
  rcases run_module_shape p w with
    ⟨hna, _⟩ | ⟨_, _, heq⟩ | ⟨_, _, hcm2, _⟩ |
    ⟨_, _, _, _, _, heq⟩ | ⟨_, _, _, _, _, heq⟩ | ⟨_, _, _, _, heq⟩
  · exact absurd ha hna
  · rw [heq]
    exact ⟨⟨_, rfl⟩, fun e he => absurd he (List.not_mem_nil e)⟩
  · rw [hcm] at hcm2
    exact absurd hcm2 (by simp)
  · rw [heq]
    exact ⟨⟨_, rfl⟩, thickEvents_not_export p w⟩
  · rw [heq]
    rcases connectAndRun_missing p w _ _ ha hm with ⟨hex, hev⟩
    refine ⟨hex, fun e he => ?_⟩
    rcases hev e he with hin | hfalse
    · exact noExport_append _ _ (thickEvents_not_export p w)
        (tcpsEnvEvents_not_export _) e hin
    · exact hfalse
  · rw [heq]
    rcases connectAndRun_missing p w _ _ ha hm with ⟨hex, hev⟩
    refine ⟨hex, fun e he => ?_⟩
    rcases hev e he with hin | hfalse
    · exact thickEvents_not_export p w e hin
    · exact hfalse

/-- C1 counterexample: with `table_name` missing and everything else
valid, a connection attempt is made (and succeeds) before the operation
fails — refuting "fails before any connection attempt". -/
theorem c1_counterexample :
    (run_module { pBase with table_name := "" } wBase).1
        = Outcome.failJson
            "Both \x27table_name\x27 and \x27save_path\x27 are required for export action"
    ∧ Event.connectAttempt "db.example.com:1521/ORCL"
        ∈ (run_module { pBase with table_name := "" } wBase).2 := by
  decide

/-- C1 witness: the amended theorem applied to a concrete invocation with
`table_name` missing. -/
theorem c1_witness :
    ∃ m, (run_module { pBase with table_name := "" } wBase).1
      = Outcome.failJson m :=
  (c1_missing_export_params_fail_before_export
    { pBase with table_name := "" } wBase rfl rfl (Or.inl rfl)).1

/-- C2: an exception in the export phase (query execution or file write)
is swallowed: the operation still reports through `exit_json` with
`changed = true` and a message carrying the failure text — never through
the fatal `fail_json` path. -/
theorem c2_export_error_nonfatal (p : Params) (w : World) (e : String)
    (ha : p.action = "export") (hh : p.host ≠ "") (hcm : p.check_mode = false)
    (hw : p.use_tcps = true → (validate_wallet p.wallet_location w).1 = true)
    (hconn : w.connectErr = none)
    (htab : p.table_name ≠ "") (hsave : p.save_path ≠ "")
    (herr : w.queryResult = QueryResult.err e
      ∨ ∃ cols rows, w.queryResult = QueryResult.ok cols rows
          ∧ w.fileWriteErr = some e) :
    (run_module p w).1
      = Outcome.exitJson true
          ("Failed to export table " ++ p.table_name ++ ": " ++ e) := by
  rw [run_module_export_outcome p w ha hh hcm hw hconn htab hsave,
    export_msg_err w.queryResult p.table_name p.save_path w.fileWriteErr e herr]

/-- C2 witness: a failing query against a nonexistent table yields a
non-fatal result carrying the driver's error text. -/
theorem c2_witness :
    (run_module pBase wQueryErr).1
      = Outcome.exitJson true
          ("Failed to export table " ++ pBase.table_name ++ ": "
            ++ "ORA-00942: table or view does not exist") :=
  c2_export_error_nonfatal pBase wQueryErr
    "ORA-00942: table or view does not exist"
    rfl (by decide) rfl (by decide) rfl (by decide) (by decide) (Or.inl rfl)

/-- C3 (amended): in every `exit_json` result, `changed` is true iff an
export was attempted (the export helper ran, i.e. query execution was
attempted) — regardless of whether the file-write path was reached. -/
theorem c3_changed_iff_export_attempted (p : Params) (w : World)
    (c : Bool) (m : String)
    (h : (run_module p w).1 = Outcome.exitJson c m) :
    c = true ↔ Event.queryExec ∈ (run_module p w).2 := by
  rcases run_module_shape p w with
    ⟨_, heq⟩ | ⟨_, _, heq⟩ | ⟨_, _, _, heq⟩ |
    ⟨_, _, _, _, _, heq⟩ | ⟨ha, _, _, _, _, heq⟩ | ⟨ha, _, _, _, heq⟩
  · rw [heq] at h
    exact absurd h (by simp)
  · rw [heq] at h
    exact absurd h (by simp)
  · rw [heq] at h ⊢
    have h2 : Outcome.exitJson false "" = Outcome.exitJson c m := h
    injection h2 with h1 _
    constructor
    · intro hc
      rw [← h1] at hc
      exact absurd hc (by simp)
    · intro hq
      exact absurd hq (List.not_mem_nil _)
  · rw [heq] at h
    exact absurd h (by simp)
  · rw [heq] at h ⊢
    rcases connectAndRun_exit p w _ _ c m ha h with ⟨hc, hmem⟩
    exact ⟨fun _ => hmem, fun _ => hc⟩
  · rw [heq] at h ⊢
    rcases connectAndRun_exit p w _ _ c m ha h with ⟨hc, hmem⟩
    exact ⟨fun _ => hmem, fun _ => hc⟩

/-- C3 counterexample: a failing query sets `changed = true` even though
no file was ever opened at `save_path` — refuting "changed is true iff
the file-write path was reached". -/
theorem c3_counterexample :
    (run_module pBase wQueryErr).1
        = Outcome.exitJson true
            "Failed to export table EMP: ORA-00942: table or view does not exist"
    ∧ Event.fileOpen "/tmp/emp.csv" ∉ (run_module pBase wQueryErr).2 := by
  decide

/-- C3 witness: the amended theorem applied to a successful export. -/
theorem c3_witness :
    true = true ↔ Event.queryExec ∈ (run_module pBase wBase).2 :=
  c3_changed_iff_export_attempted pBase wBase true
    "Table EMP exported successfully to /tmp/emp.csv" (by decide)

/-- C4 (amended): for every non-check-mode invocation with a valid action
and non-empty host that requests TCPS with a missing, non-directory or
empty wallet directory, the operation fails with one of the two
wallet-specific messages and never attempts to open a connection. -/
theorem c4_invalid_wallet_fails_without_connect (p : Params) (w : World)
    (ha : p.action = "export") (hh : p.host ≠ "") (hcm : p.check_mode = false)
    (ht : p.use_tcps = true)
    (hv : (validate_wallet p.wallet_location w).1 = false) :
    (run_module p w).1
        = Outcome.failJson (validate_wallet p.wallet_location w).2
    ∧ ((validate_wallet p.wallet_location w).2
          = "Wallet location \x27" ++ p.wallet_location ++
            "\x27 does not exist or is not a directory."
        ∨ (validate_wallet p.wallet_location w).2
          = "Wallet location \x27" ++ p.wallet_location ++
            "\x27 is empty. No wallet files found.")
    ∧ ∀ d, Event.connectAttempt d ∉ (run_module p w).2 := by
  rcases run_module_shape p w with
    ⟨hna, _⟩ | ⟨_, hh2, _⟩ | ⟨_, _, hcm2, _⟩ |
    ⟨_, _, _, _, _, heq⟩ | ⟨_, _, _, _, hv2, _⟩ | ⟨_, _, _, ht2, _⟩
  · exact absurd ha hna
  · exact absurd hh2 hh
  · rw [hcm] at hcm2
    exact absurd hcm2 (by simp)
  · refine ⟨by rw [heq], validate_wallet_msg p.wallet_location w hv, ?_⟩
    intro d hd
    rw [heq] at hd
    unfold thickEvents at hd
    split at hd
    · simp at hd
    · exact absurd hd (List.not_mem_nil _)
  · rw [hv2] at hv
    exact absurd hv (by simp)
  · rw [ht2] at ht
    exact absurd ht (by simp)

/-- C4 counterexample: in check mode the same invalid-wallet invocation
does not fail at all — it exits with the unchanged default result —
refuting the unconditional "the operation fails with a wallet-specific
message". -/
theorem c4_counterexample :
    run_module { pTcps with check_mode := true } wNoDir
        = (Outcome.exitJson false "", [])
    ∧ (run_module { pTcps with check_mode := true } wNoDir).1
        ≠ Outcome.failJson
            "Wallet location \x27/wallet\x27 does not exist or is not a directory." := by
  decide

/-- C4 witness: the amended theorem applied to a live TCPS invocation
whose wallet path is not a directory. -/
theorem c4_witness :
    (run_module pTcps wNoDir).1
      = Outcome.failJson (validate_wallet pTcps.wallet_location wNoDir).2 :=
  (c4_invalid_wallet_fails_without_connect pTcps wNoDir
    rfl (by decide) rfl rfl (by decide)).1

/-- C5 (amended): a check-mode invocation produces no events at all (no
connection attempt, no file I/O, no environment mutation) for every
parameter set; it returns the default unchanged result provided the
action is valid and the host is non-empty — with an empty host it fails
argument validation (oracle.py line 166) before the check-mode test at
line 169, as the counterexample shows. -/
theorem c5_check_mode_no_io (p : Params) (w : World)
    (hcm : p.check_mode = true) :
    (run_module p w).2 = []
    ∧ (p.action = "export" → p.host ≠ "" →
        run_module p w = (Outcome.exitJson false "", [])) := by
  by_cases ha : p.action = "export"
  · by_cases hh : p.host = ""
    · exact ⟨by simp [run_module, ha, hh], fun _ hh2 => absurd hh hh2⟩
    · exact ⟨by simp [run_module, ha, hh, hcm],
        fun _ _ => by simp [run_module, ha, hh, hcm]⟩
  · exact ⟨by simp [run_module, ha], fun ha2 => absurd ha2 ha⟩

/-- C5 counterexample: in check mode with an empty host the operation
exits fatally with the host validation message instead of returning the
default unchanged result — refuting "regardless of all other
parameters". -/
theorem c5_counterexample :
    (run_module { pCheck with host := "" } wBase).1
        = Outcome.failJson "Missing required parameter: host"
    ∧ (run_module { pCheck with host := "" } wBase).1
        ≠ Outcome.exitJson false "" := by
  decide

/-- C5 witness: the amended theorem applied to a well-formed check-mode
invocation. -/
theorem c5_witness :
    (run_module pCheck wBase).2 = []
    ∧ run_module pCheck wBase = (Outcome.exitJson false "", []) :=
  ⟨(c5_check_mode_no_io pCheck wBase rfl).1,
   (c5_check_mode_no_io pCheck wBase rfl).2 rfl (by decide)⟩

/-- C6 (amended): for every export that succeeds, provided no column name
or field value contains a character the CSV writer must quote (comma,
double quote, CR or LF) and no header/row is the writer-quoted single
empty field, the written file is the header line followed by one line per
row in cursor order, each line the comma-join of its fields, and it has
exactly N+1 physical lines for N rows.  (Unrestricted, the physical line
count fails: a field containing a newline is quoted across several
physical lines, as the counterexample shows.) -/
theorem c6_export_file_shape (cols : List String) (rows : List (List String))
    (t sp : String)
    (hcols : ∀ f ∈ cols, csvNeedsQuoting f = false) (hc1 : cols ≠ [""])
    (hrows : ∀ r ∈ rows, (∀ f ∈ r, csvNeedsQuoting f = false) ∧ r ≠ [""]) :
    (export_table_to_csv (QueryResult.ok cols rows) t sp none).1
        = "Table " ++ t ++ " exported successfully to " ++ sp
    ∧ (export_table_to_csv (QueryResult.ok cols rows) t sp none).2
        = [Event.queryExec, Event.fileOpen sp,
           Event.fileWrite sp (csvContent cols rows)]
    ∧ csvContent cols rows
        = linesJoined (joinSep "," cols :: rows.map (joinSep ","))
    ∧ numLines (csvContent cols rows) = rows.length + 1 :=
  ⟨rfl, rfl, csvContent_simple cols rows hcols hc1 hrows,
   numLines_csvContent_simple cols rows hcols hc1 hrows⟩

/-- C6 counterexample: a successful export of one row whose single field
contains a newline writes a file with 3 physical lines, not N+1 = 2 —
the writer quotes the field but keeps the newline inside it. -/
theorem c6_counterexample :
    (export_table_to_csv (QueryResult.ok ["A"] [["x\ny"]])
        "T" "/tmp/out.csv" none).1
        = "Table T exported successfully to /tmp/out.csv"
    ∧ Event.fileWrite "/tmp/out.csv" (csvContent ["A"] [["x\ny"]])
        ∈ (export_table_to_csv (QueryResult.ok ["A"] [["x\ny"]])
            "T" "/tmp/out.csv" none).2
    ∧ numLines (csvContent ["A"] [["x\ny"]]) = 3
    ∧ [["x\ny"]].length + 1 = 2 := by
  decide

/-- C6 witness: the amended theorem applied to the spec's two-column,
two-row example table. -/
theorem c6_witness :
    (export_table_to_csv
        (QueryResult.ok ["EMPNO", "ENAME"] [["1", "A"], ["2", "B"]])
        "EMP" "/tmp/emp.csv" none).1
        = "Table " ++ "EMP" ++ " exported successfully to " ++ "/tmp/emp.csv"
    ∧ (export_table_to_csv
        (QueryResult.ok ["EMPNO", "ENAME"] [["1", "A"], ["2", "B"]])
        "EMP" "/tmp/emp.csv" none).2
        = [Event.queryExec, Event.fileOpen "/tmp/emp.csv",
           Event.fileWrite "/tmp/emp.csv"
             (csvContent ["EMPNO", "ENAME"] [["1", "A"], ["2", "B"]])]
    ∧ csvContent ["EMPNO", "ENAME"] [["1", "A"], ["2", "B"]]
        = linesJoined (joinSep "," ["EMPNO", "ENAME"]
            :: [["1", "A"], ["2", "B"]].map (joinSep ","))
    ∧ numLines (csvContent ["EMPNO", "ENAME"] [["1", "A"], ["2", "B"]])
        = [["1", "A"], ["2", "B"]].length + 1 :=
  c6_export_file_shape ["EMPNO", "ENAME"] [["1", "A"], ["2", "B"]]
    "EMP" "/tmp/emp.csv" (by decide) (by decide) (by decide)

/-- C7: every export that succeeds reports exactly the message
`Table {table_name} exported successfully to {save_path}` (oracle.py
line 113). -/
theorem c7_success_message (p : Params) (w : World)
    (cols : List String) (rows : List (List String))
    (ha : p.action = "export") (hh : p.host ≠ "") (hcm : p.check_mode = false)
    (hw : p.use_tcps = true → (validate_wallet p.wallet_location w).1 = true)
    (hconn : w.connectErr = none)
    (htab : p.table_name ≠ "") (hsave : p.save_path ≠ "")
    (hq : w.queryResult = QueryResult.ok cols rows)
    (hfw : w.fileWriteErr = none) :
    (run_module p w).1
      = Outcome.exitJson true
          ("Table " ++ p.table_name ++ " exported successfully to "
            ++ p.save_path) := by
  rw [run_module_export_outcome p w ha hh hcm hw hconn htab hsave, hq, hfw]
  rfl

/-- C7 witness: the spec's §8 example — table `EMP`, destination
`/tmp/emp.csv`. -/
theorem c7_witness :
    (run_module pBase wBase).1
      = Outcome.exitJson true
          ("Table " ++ pBase.table_name ++ " exported successfully to "
            ++ pBase.save_path) :=
  c7_success_message pBase wBase ["EMPNO", "ENAME"] [["1", "A"], ["2", "B"]]
    rfl (by decide) rfl (by decide) rfl (by decide) (by decide) rfl rfl

/-- C8: on every invocation that reaches the export attempt, the cursor
close and connection close are the final two events of the trace, after
the export attempt and before the result is reported (oracle.py lines
209-210) — whether the export succeeded or its failure was swallowed. -/
theorem c8_close_after_export (p : Params) (w : World)
    (h : Event.queryExec ∈ (run_module p w).2) :
    ∃ pre, (run_module p w).2 = pre ++ [Event.cursorClose, Event.connClose]
      ∧ Event.queryExec ∈ pre := by
  rcases run_module_shape p w with
    ⟨_, heq⟩ | ⟨_, _, heq⟩ | ⟨_, _, _, heq⟩ |
    ⟨_, _, _, _, _, heq⟩ | ⟨_, _, _, _, _, heq⟩ | ⟨_, _, _, _, heq⟩
  · rw [heq] at h
    exact absurd h (List.not_mem_nil _)
  · rw [heq] at h
    exact absurd h (List.not_mem_nil _)
  · rw [heq] at h
    exact absurd h (List.not_mem_nil _)
  · rw [heq] at h
    exact absurd h
      (queryExec_not_mem_of_noExport _ (thickEvents_not_export p w))
  · rw [heq] at h ⊢
    exact (connectAndRun_queryExec p w _ _
      (noExport_append _ _ (thickEvents_not_export p w)
        (tcpsEnvEvents_not_export _)) h).2
  · rw [heq] at h ⊢
    exact (connectAndRun_queryExec p w _ _ (thickEvents_not_export p w) h).2

/-- C8 witness: a successful export run closes cursor and connection at
the end of its trace. -/
theorem c8_witness :
    ∃ pre, (run_module pBase wBase).2
        = pre ++ [Event.cursorClose, Event.connClose]
      ∧ Event.queryExec ∈ pre :=
  c8_close_after_export pBase wBase (by decide)

/-- C9: environment variables are mutated only when encrypted transport
or an existing native client library directory is configured — with
`use_tcps` false and no existing `client_lib_dir` the trace holds no
environment mutation at all — and the encrypted branch (valid wallet)
points `TNS_ADMIN`, `WALLET_LOCATION` and `SSL_CERT_DIR` at the wallet
directory and sets `IGNORE_ANO_ENCRYPTION_FOR_TCPS` to `TRUE`. -/
theorem c9_env_mutation_frame :
    (∀ (p : Params) (w : World), p.use_tcps = false →
      ¬ (p.client_lib_dir ≠ "" ∧ w.fs_isdir p.client_lib_dir = true) →
      ∀ e ∈ (run_module p w).2, isEnvEvent e = false)
    ∧ (∀ (p : Params) (w : World), p.use_tcps = true → p.action = "export" →
        p.host ≠ "" → p.check_mode = false →
        (validate_wallet p.wallet_location w).1 = true →
        Event.setEnv "TNS_ADMIN" p.wallet_location ∈ (run_module p w).2
        ∧ Event.setEnv "WALLET_LOCATION" p.wallet_location ∈ (run_module p w).2
        ∧ Event.setEnv "SSL_CERT_DIR" p.wallet_location ∈ (run_module p w).2
        ∧ Event.setEnv "IGNORE_ANO_ENCRYPTION_FOR_TCPS" "TRUE"
            ∈ (run_module p w).2) := by
  constructor
  · intro p w ht hcl e he
    rcases run_module_shape p w with
      ⟨_, heq⟩ | ⟨_, _, heq⟩ | ⟨_, _, _, heq⟩ |
      ⟨_, _, _, ht2, _, _⟩ | ⟨_, _, _, ht2, _, _⟩ | ⟨_, _, _, _, heq⟩
    · rw [heq] at he
      exact absurd he (List.not_mem_nil _)
    · rw [heq] at he
      exact absurd he (List.not_mem_nil _)
    · rw [heq] at he
      exact absurd he (List.not_mem_nil _)
    · rw [ht] at ht2
      exact absurd ht2 (by simp)
    · rw [ht] at ht2
      exact absurd ht2 (by simp)
    · rw [heq] at he
      have hthick : thickEvents p w = [] := by
        unfold thickEvents
        rw [if_neg hcl]
      refine connectAndRun_env p w _ _ ?_ e he
      rw [hthick]
      exact fun x hx => absurd hx (List.not_mem_nil _)
  · intro p w ht ha hh hcm hv
    rcases run_module_shape p w with
      ⟨hna, _⟩ | ⟨_, hh2, _⟩ | ⟨_, _, hcm2, _⟩ |
      ⟨_, _, _, _, hv2, _⟩ | ⟨_, _, _, _, _, heq⟩ | ⟨_, _, _, ht2, _⟩
    · exact absurd ha hna
    · exact absurd hh2 hh
    · rw [hcm] at hcm2
      exact absurd hcm2 (by simp)
    · rw [hv] at hv2
      exact absurd hv2 (by simp)
    · rw [heq]
      rcases connectAndRun_trace_shape p w
        (thickEvents p w ++ tcpsEnvEvents p.wallet_location) (tcpsDsn p)
        with ⟨rest, htr⟩
      rw [htr]
      have hsub : ∀ ev ∈ tcpsEnvEvents p.wallet_location,
          ev ∈ (thickEvents p w ++ tcpsEnvEvents p.wallet_location) ++ rest :=
        fun ev hev =>
          List.mem_append_left _ (List.mem_append_right _ hev)
      exact ⟨hsub _ (by simp [tcpsEnvEvents]), hsub _ (by simp [tcpsEnvEvents]),
        hsub _ (by simp [tcpsEnvEvents]), hsub _ (by simp [tcpsEnvEvents])⟩
    · rw [ht] at ht2
      exact absurd ht2 (by simp)

/-- C9 witness: a plain invocation with no client library mutates nothing
(checked on one event of its trace), and a valid-wallet TCPS invocation
sets `TNS_ADMIN` to the wallet directory. -/
theorem c9_witness :
    isEnvEvent Event.cursorOpen = false
    ∧ Event.setEnv "TNS_ADMIN" pTcps.wallet_location
        ∈ (run_module pTcps wBase).2 :=
  ⟨c9_env_mutation_frame.1 pBase wBase rfl (by decide)
      Event.cursorOpen (by decide),
   (c9_env_mutation_frame.2 pTcps wBase rfl rfl (by decide) rfl (by decide)).1⟩

/-- C10: the export helper is total at its interface — it returns either
the success message or a failure message of the form
`Failed to export table {t}: {e}` and never propagates an exception —
and consequently any run in which the export was attempted reports
through `exit_json` (with `changed = true`), never through the fatal
`DatabaseError` handler. -/
theorem c10_export_helper_total_nonfatal :
    (∀ (qr : QueryResult) (t sp : String) (fe : Option String),
      (export_table_to_csv qr t sp fe).1
          = "Table " ++ t ++ " exported successfully to " ++ sp
      ∨ ∃ e, (export_table_to_csv qr t sp fe).1
          = "Failed to export table " ++ t ++ ": " ++ e)
    ∧ (∀ (p : Params) (w : World),
        Event.queryExec ∈ (run_module p w).2 →
        ∃ m, (run_module p w).1 = Outcome.exitJson true m) := by
  constructor
  · intro qr t sp fe
    cases qr with
    | err e => exact Or.inr ⟨e, rfl⟩
    | ok cols rows =>
      cases fe with
      | some e => exact Or.inr ⟨e, rfl⟩
      | none => exact Or.inl rfl
  · intro p w h
    rcases run_module_shape p w with
      ⟨_, heq⟩ | ⟨_, _, heq⟩ | ⟨_, _, _, heq⟩ |
      ⟨_, _, _, _, _, heq⟩ | ⟨_, _, _, _, _, heq⟩ | ⟨_, _, _, _, heq⟩
    · rw [heq] at h
      exact absurd h (List.not_mem_nil _)
    · rw [heq] at h
      exact absurd h (List.not_mem_nil _)
    · rw [heq] at h
      exact absurd h (List.not_mem_nil _)
    · rw [heq] at h
      exact absurd h
        (queryExec_not_mem_of_noExport _ (thickEvents_not_export p w))
    · rw [heq] at h ⊢
      exact ⟨_, (connectAndRun_queryExec p w _ _
        (noExport_append _ _ (thickEvents_not_export p w)
          (tcpsEnvEvents_not_export _)) h).1⟩
    · rw [heq] at h ⊢
      exact ⟨_, (connectAndRun_queryExec p w _ _
        (thickEvents_not_export p w) h).1⟩

/-- C10 witness: the helper applied to a failing query, and the run-level
consequence applied to a successful export run. -/
theorem c10_witness :
    ((export_table_to_csv (QueryResult.err "boom") "EMP" "/tmp/emp.csv"
        none).1
        = "Table " ++ "EMP" ++ " exported successfully to " ++ "/tmp/emp.csv"
      ∨ ∃ e, (export_table_to_csv (QueryResult.err "boom") "EMP" "/tmp/emp.csv"
          none).1
          = "Failed to export table " ++ "EMP" ++ ": " ++ e)
    ∧ ∃ m, (run_module pBase wBase).1 = Outcome.exitJson true m :=
  ⟨c10_export_helper_total_nonfatal.1 (QueryResult.err "boom") "EMP"
      "/tmp/emp.csv" none,
   c10_export_helper_total_nonfatal.2 pBase wBase (by decide)⟩
